import Mathlib

/-!
Verification of the b2-backend upload service (src/index.js, first revision:
the Express app with the single-file POST /upload handler, GET /file-url,
GET /courses, GET /course/:id and GET /health).

The handlers are shallowly embedded: each external collaborator (Firebase
identity verification, the Backblaze B2 object store, the Firestore metadata
store, the ffprobe duration extractor) is an oracle supplied through an
environment record, and each handler is a pure function from the environment
and the request to a result consisting of an HTTP status, a response body and
the ordered list of externally visible calls (effects) the handler issued.
-/

namespace B2Backend

/-- JavaScript String.prototype.padStart with a single pad character, as the
polyfill in index.js lines 101-105 defines it: prepend `len - s.length` copies
of the character (never truncating). -/
def padStart (s : String) (len : Nat) (c : Char) : String :=
  String.mk (List.replicate (len - s.length) c) ++ s

/-- Zero padding to two digits, `n.toString().padStart(2, '0')`. -/
def pad2 (n : Nat) : String :=
  padStart (toString n) 2 '0'

/-- Helper for `extname`: given the reversed character list of a file name,
return the reversed extension (the characters up to and including the last
dot of the original string), if any dot exists. -/
def revExtAux : List Char → Option (List Char)
  | [] => none
  | c :: rest => if c = '.' then some [c] else (revExtAux rest).map (c :: ·)

/-- Node path.extname on a plain file name (no directory separators): the
substring from the last dot to the end; the empty string when there is no dot
or when the only dot is the leading character (hidden files). -/
def extname (s : String) : String :=
  match revExtAux s.data.reverse with
  | none => ""
  | some revExt =>
    -- a dot at index 0 that starts the whole name yields no extension
    if revExt.length = s.data.length then "" else String.mk revExt.reverse

/-- JavaScript toLowerCase on the file names handled here: lower each
character (ASCII case folding via Char.toLower). -/
def toLowerStr (s : String) : String :=
  String.mk (s.data.map Char.toLower)

/-- JavaScript parseInt(s, 10): skip leading whitespace, read an optional
sign and then leading decimal digits; `none` models NaN (no digits found). -/
def parseIntJS (s : String) : Option Int :=
  let cs := s.data.dropWhile (fun c => c = ' ' ∨ c = '\t' ∨ c = '\n' ∨ c = '\r')
  let signAndRest : Int × List Char :=
    match cs with
    | '-' :: rest => (-1, rest)
    | '+' :: rest => (1, rest)
    | _ => (1, cs)
  let digits := signAndRest.2.takeWhile Char.isDigit
  if digits.isEmpty then none
  else some (signAndRest.1 *
    (digits.foldl (fun a c => a * 10 + (c.toNat - 48)) (0 : Nat) : Int))

/-- JavaScript truthiness of a possibly-absent string form field: absent
(undefined) and the empty string are falsy. -/
def truthy : Option String → Bool
  | none => false
  | some s => !s.isEmpty

/-- Duration formatting inside getVideoDuration (index.js lines 82-88):
floor the seconds, split into hours, minutes within the hour and seconds
within the minute, and print HH:MM:SS when hours > 0 and MM:SS otherwise,
each component zero-padded to two digits.  The source computes with
JavaScript numbers; ffprobe durations are nonnegative, and on nonnegative
rationals Nat division and remainder agree with the Math.floor / % code. -/
def formatDuration (d : ℚ) : String :=
  let duration : Nat := (⌊d⌋).toNat
  let hours := duration / 3600
  let minutes := (duration % 3600) / 60
  let seconds := duration % 60
  if hours > 0 then
    pad2 hours ++ ":" ++ pad2 minutes ++ ":" ++ pad2 seconds
  else
    pad2 minutes ++ ":" ++ pad2 seconds

/-- Outcome of the duration-extraction attempt, the oracle for the external
calls inside getVideoDuration (index.js lines 62-98): the temp-file write can
fail, ffprobe can fail, ffprobe can return metadata without a valid numeric
duration, or it yields a duration in seconds. -/
inductive ProbeOutcome where
  | writeError
  | probeError
  | noDuration
  | ok (d : ℚ)
deriving DecidableEq

/-- getVideoDuration (index.js lines 62-98) as a function of the probe
outcome.  Every failure path resolves the string 00:00 (the promise never
rejects); a valid duration that is zero is falsy in JavaScript, so the
`!durationSeconds` guard also resolves 00:00 there. -/
def getVideoDuration (outcome : ProbeOutcome) : String :=
  match outcome with
  | .writeError => "00:00"
  | .probeError => "00:00"
  | .noDuration => "00:00"
  | .ok d => if d = 0 then "00:00" else formatDuration d

/-- Uploaded multipart file: multer memory storage keeps the original client
file name and the byte buffer; only the name feeds the control flow modelled
here (the buffer is an opaque payload passed to external calls). -/
structure FileData where
  originalname : String
deriving DecidableEq

/-- POST /upload request after multer parsing: the bearer token (already
split off the Authorization header; `none` when the header is missing or has
no Bearer part), the multipart form fields, and the uploaded file.  Absent
fields are `none`; JavaScript also treats empty strings as missing via
truthiness, captured by `truthy`. -/
structure UploadRequest where
  idToken : Option String
  type : Option String
  courseId : Option String
  uploader : Option String
  name : Option String
  sectionId : Option String
  contentId : Option String
  order : Option String
  file : Option FileData

/-- Document written to the contents subcollection (index.js lines 238-246).
uploadedAt is a server-side timestamp sentinel and carries no client data, so
it is not modelled.  The order field is present exactly when the order form
field was defined; its inner `none` models the NaN that parseInt yields on a
non-numeric string. -/
structure ContentData where
  title : String
  type : String
  backblazePath : String
  uploader : String
  order : Option (Option Int)
  duration : Option String
deriving DecidableEq

/-- Externally visible calls the upload handler can issue, in issue order:
the B2 uploadFile call, the Firestore content set, the Firestore course
thumbnail update (which also touches a server-timestamp field), and the B2
deleteFileVersion cleanup call. -/
inductive Effect where
  | uploadFile (fileName : String)
  | setContent (courseId sectionId contentId : String) (data : ContentData)
  | updateCourseThumbnail (courseId : String) (thumbnailUrl : String)
  | deleteFileVersion (fileName fileId : String)
deriving DecidableEq

/-- Oracle for the external collaborators of one POST /upload request:
token verification (uid on success, thrown error message otherwise), the
lazy B2 session initialization, the ffprobe outcome, the getUploadUrl and
uploadFile outcomes (the latter yielding data.fileId), the Firestore write
outcome, the cleanup deleteFileVersion outcome, and the generated uuid. -/
structure UploadEnv where
  verifyToken : String → Except String String
  b2Init : Except String Unit
  probe : ProbeOutcome
  uploadUrlResult : Except String Unit
  uploadResult : Except String String
  metaResult : Except String Unit
  deleteResult : Except String Unit
  uuid : String

/-- Response body of POST /upload: an error object with an error string and
optional details, or the success object holding fileUrl or thumbnailUrl and,
for videos, the duration string. -/
inductive UploadBody where
  | err (error : String) (details : Option String)
  | ok (fileUrl thumbnailUrl duration : Option String)
deriving DecidableEq

/-- Result of one POST /upload request: HTTP status, response body, and the
ordered list of external calls the handler issued. -/
structure UploadResult where
  status : Nat
  body : UploadBody
  effects : List Effect
deriving DecidableEq

/-- Continuation of the upload handler after validation has passed and the
storage key was derived (index.js lines 203-280): extract the duration for
videos with the 00:00 fallbacks, upload to B2 (aborting with 500 on failure),
write the metadata document, compensate a metadata failure by deleting the
uploaded file when a fileId was captured (ignoring the outcome of that
delete), and build the success response. -/
def uploadAfterKey (env : UploadEnv) (req : UploadRequest) (filePath : String) :
    UploadResult :=
  let typeStr := req.type.getD ""
  let name := req.name.getD "Untitled"
  let sectionId := req.sectionId.getD "default"
  let courseId := req.courseId.getD ""
  let uploader := req.uploader.getD ""
  let serverDuration : Option String :=
    if typeStr = "video" then
      let s := getVideoDuration env.probe
      some (if s.isEmpty then "00:00" else s)
    else none
  match env.uploadUrlResult with
  | .error e => ⟨500, .err "Backblaze upload failed" (some e), []⟩
  | .ok _ =>
  match env.uploadResult with
  | .error e => ⟨500, .err "Backblaze upload failed" (some e), [.uploadFile filePath]⟩
  | .ok fileId =>
  let metaEffect : Effect :=
    if typeStr = "thumbnail" then .updateCourseThumbnail courseId filePath
    else .setContent courseId sectionId (req.contentId.getD "")
      { title := name, type := typeStr, backblazePath := filePath,
        uploader := uploader, order := req.order.map parseIntJS,
        duration := serverDuration }
  match env.metaResult with
  | .error e =>
    if fileId ≠ "" then
      ⟨500, .err "Firestore write failed" (some e),
        [.uploadFile filePath, metaEffect, .deleteFileVersion filePath fileId]⟩
    else
      ⟨500, .err "Firestore write failed" (some e), [.uploadFile filePath, metaEffect]⟩
  | .ok _ =>
    if typeStr = "thumbnail" then
      ⟨200, .ok none (some filePath) none, [.uploadFile filePath, metaEffect]⟩
    else
      ⟨200, .ok (some filePath) none serverDuration, [.uploadFile filePath, metaEffect]⟩

/-- POST /upload handler (index.js lines 141-285): missing token yields 401;
a token-verification or B2-initialization throw is caught by the outer catch
as a 500 Upload failed; then the required-field check (contentId required
unless the type is thumbnail), the uploader-identity check, the type
whitelist, and the per-type extension whitelist with storage-key derivation,
each rejecting without any external call; the rest is `uploadAfterKey`. -/
def uploadHandler (env : UploadEnv) (req : UploadRequest) : UploadResult :=
  match req.idToken with
  | none => ⟨401, .err "Unauthorized: Missing ID token" none, []⟩
  | some idToken =>
  match env.verifyToken idToken with
  | .error e => ⟨500, .err "Upload failed" (some e), []⟩
  | .ok userId =>
  match env.b2Init with
  | .error e => ⟨500, .err "Upload failed" (some e), []⟩
  | .ok _ =>
  if truthy req.type = false ∨ truthy req.courseId = false ∨
      truthy req.uploader = false ∨ req.file.isNone ∨
      (req.type ≠ some "thumbnail" ∧ truthy req.contentId = false) then
    ⟨400, .err "Missing required fields or file" none, []⟩
  else
    let typeStr := req.type.getD ""
    let uploader := req.uploader.getD ""
    if uploader ≠ userId then
      ⟨403, .err "Forbidden" (some "Uploader does not match authenticated user"), []⟩
    else if (["video", "pdf", "thumbnail"] : List String).contains typeStr = false then
      ⟨400, .err "Invalid file type" none, []⟩
    else
      let fileExtension := toLowerStr (extname ((req.file.getD ⟨""⟩).originalname))
      if typeStr = "video" then
        if ([".mp4", ".mov", ".avi"] : List String).contains fileExtension = false then
          ⟨400, .err "Invalid video format" (some "Only MP4, MOV, or AVI allowed"), []⟩
        else uploadAfterKey env req ("videos/vid_" ++ env.uuid ++ fileExtension)
      else if typeStr = "pdf" then
        if fileExtension ≠ ".pdf" then
          ⟨400, .err "Invalid file format" (some "Only PDF allowed"), []⟩
        else uploadAfterKey env req ("pdfs/pdf_" ++ env.uuid ++ fileExtension)
      else
        if ([".jpg", ".jpeg", ".png"] : List String).contains fileExtension = false then
          ⟨400, .err "Invalid thumbnail format" (some "Only JPG or PNG allowed"), []⟩
        else uploadAfterKey env req ("thumbnails/thumb_" ++ env.uuid ++ fileExtension)

/-- One document in a contents subcollection, with its document id. -/
structure ContentDoc where
  id : String
  data : ContentData
deriving DecidableEq

/-- One document in the sections subcollection of a course, with its
contents subcollection. -/
structure SectionDoc where
  id : String
  contents : List ContentDoc
deriving DecidableEq

/-- One document in the courses collection: the fields the handlers touch
(the thumbnail storage key) and the nested sections. -/
structure CourseDoc where
  id : String
  thumbnailUrl : Option String
  sections : List SectionDoc
deriving DecidableEq

/-- Firestore set on contents/<xid>: overwrite the document if present,
create it otherwise. -/
def setContentList (cs : List ContentDoc) (xid : String) (d : ContentData) :
    List ContentDoc :=
  if cs.any (fun c => c.id = xid) then
    cs.map (fun c => if c.id = xid then ⟨xid, d⟩ else c)
  else cs ++ [⟨xid, d⟩]

/-- Firestore set on sections/<sid>/contents/<xid>: the section document
need not pre-exist for the nested set to land. -/
def setContentInSections (ss : List SectionDoc) (sid xid : String)
    (d : ContentData) : List SectionDoc :=
  if ss.any (fun s => s.id = sid) then
    ss.map (fun s =>
      if s.id = sid then ⟨s.id, setContentList s.contents xid d⟩ else s)
  else ss ++ [⟨sid, setContentList [] xid d⟩]

/-- Effect of one issued external call on the metadata store.  Object-store
calls leave it unchanged.  A content set under a course document that does
not exist is not represented (the course fetch would answer 404 for it
before reaching any content); the scenarios proved here write into existing
courses. -/
def applyEffect (db : List CourseDoc) (e : Effect) : List CourseDoc :=
  match e with
  | .uploadFile _ => db
  | .deleteFileVersion _ _ => db
  | .updateCourseThumbnail cid key =>
    db.map (fun c => if c.id = cid then ⟨c.id, some key, c.sections⟩ else c)
  | .setContent cid sid xid d =>
    db.map (fun c =>
      if c.id = cid then
        ⟨c.id, c.thumbnailUrl, setContentInSections c.sections sid xid d⟩
      else c)

/-- Ordered application of the external calls issued by a handler. -/
def applyEffects (db : List CourseDoc) (es : List Effect) : List CourseDoc :=
  es.foldl applyEffect db

/-- Response body of GET /course/:id. -/
inductive CourseBody where
  | err (error : String)
  | ok (course : CourseDoc)
deriving DecidableEq

/-- GET /course/:id handler (index.js lines 329-367).  When the course
document does not exist the handler answers 404.  When it does exist, the
next statement is `const courseData = doc.data()` (line 336) and no binding
named doc is in scope in that handler (the fetched document is bound to
courseDoc), so a ReferenceError is thrown and the catch block answers 500
Failed to fetch course; the section and content reads below that line are
unreachable in this revision. -/
def getCourseById (db : List CourseDoc) (courseId : String) :
    Nat × CourseBody :=
  match db.find? (fun c => c.id = courseId) with
  | none => (404, .err "Course not found")
  | some _ => (500, .err "Failed to fetch course")

/-- Data of one b2.getDownloadAuthorization call issued by GET /file-url
(index.js lines 123-127).  The source passes the key under the SDK field
named fileNamePrefix; it is called fileNamePfx here. -/
structure DlAuthCall where
  bucketId : String
  fileNamePfx : String
  validDurationInSeconds : Nat
deriving DecidableEq

/-- Successful payload of b2.getDownloadAuthorization: the authorization
token, and possibly an account download host (data.downloadUrl, absent in
practice, hence the fallback chain in the handler). -/
structure DlAuthData where
  downloadUrl : Option String
  authorizationToken : String
deriving DecidableEq

/-- Oracle for the external collaborators of one GET /file-url request:
token verification, the lazy B2 initialization, b2.authorize (yielding the
account download host when defined), b2.getDownloadAuthorization, and the
bucket configuration from the environment. -/
structure FileUrlEnv where
  verifyToken : String → Except String Unit
  b2Init : Except String Unit
  authResult : Except String (Option String)
  dlAuthResult : Except String DlAuthData
  bucketId : String
  bucketName : String

/-- Response body of GET /file-url. -/
inductive FileUrlBody where
  | err (error : String) (details : Option String)
  | ok (url : String)
deriving DecidableEq

/-- Result of one GET /file-url request: HTTP status, body, and the list of
getDownloadAuthorization calls issued. -/
structure FileUrlResult where
  status : Nat
  body : FileUrlBody
  calls : List DlAuthCall
deriving DecidableEq

/-- JavaScript a || b on a possibly-absent string: b when a is undefined or
empty (falsy), a otherwise. -/
def orFalsy (a : Option String) (b : String) : String :=
  match a with
  | some s => if s.isEmpty then b else s
  | none => b

/-- GET /file-url handler (index.js lines 108-138): 400 when the bearer
token or the file query parameter is missing (or empty, which is falsy);
any throw of token verification, B2 initialization, b2.authorize or
b2.getDownloadAuthorization is caught as a 500; otherwise the signed URL is
composed from the download host (authorization response, then account
authorize response, then the fixed f000 host), the bucket name, the key and
the authorization token.  Every getDownloadAuthorization call is scoped to
the requested key as prefix and valid for 3600 seconds. -/
def fileUrlHandler (env : FileUrlEnv) (idToken : Option String)
    (filePath : Option String) : FileUrlResult :=
  if truthy idToken = false ∨ truthy filePath = false then
    ⟨400, .err "Missing idToken or filePath" none, []⟩
  else
    let tok := idToken.getD ""
    let fp := filePath.getD ""
    match env.verifyToken tok with
    | .error e => ⟨500, .err "Failed to generate signed URL" (some e), []⟩
    | .ok _ =>
    match env.b2Init with
    | .error e => ⟨500, .err "Failed to generate signed URL" (some e), []⟩
    | .ok _ =>
    match env.authResult with
    | .error e => ⟨500, .err "Failed to generate signed URL" (some e), []⟩
    | .ok acctDownloadUrl =>
    match env.dlAuthResult with
    | .error e =>
      ⟨500, .err "Failed to generate signed URL" (some e),
        [⟨env.bucketId, fp, 3600⟩]⟩
    | .ok dl =>
      let downloadUrl :=
        orFalsy dl.downloadUrl (orFalsy acctDownloadUrl "https://f000.backblazeb2.com")
      ⟨200,
        .ok (downloadUrl ++ "/file/" ++ env.bucketName ++ "/" ++ fp ++
          "?Authorization=" ++ dl.authorizationToken),
        [⟨env.bucketId, fp, 3600⟩]⟩

/-- Extension whitelist of a declared type, as the spec states it (video:
.mp4/.mov/.avi; pdf: .pdf; thumbnail, the remaining declared type: .jpg,
.jpeg, .png). -/
def extAllowed (t ext : String) : Bool :=
  if t = "video" then ([".mp4", ".mov", ".avi"] : List String).contains ext
  else if t = "pdf" then ext == ".pdf"
  else ([".jpg", ".jpeg", ".png"] : List String).contains ext

/-- Storage key derived for a declared type, uuid and extension, as the
spec states it: a type-dependent prefix followed by the random id and the
extension. -/
def keyFor (t uuid ext : String) : String :=
  if t = "video" then "videos/vid_" ++ uuid ++ ext
  else if t = "pdf" then "pdfs/pdf_" ++ uuid ++ ext
  else "thumbnails/thumb_" ++ uuid ++ ext

/-- Duration string as the spec describes it: the duration floored to whole
seconds, printed as zero-padded MM:SS when below one hour and zero-padded
HH:MM:SS from one hour up. -/
def specDurationString (d : ℚ) : String :=
  let n : Nat := (⌊d⌋).toNat
  if d < 3600 then pad2 (n / 60) ++ ":" ++ pad2 (n % 60)
  else pad2 (n / 3600) ++ ":" ++ pad2 ((n / 60) % 60) ++ ":" ++ pad2 (n % 60)

/-- Sample verifier for concrete scenarios: one valid token for user u1. -/
def sampleVerify : String → Except String String :=
  fun t => if t = "tok" then .ok "u1" else .error "bad token"

/-- Environment in which every external call succeeds. -/
def envOkA : UploadEnv :=
  ⟨sampleVerify, .ok (), .ok 125, .ok (), .ok "fid1", .ok (), .ok (), "U"⟩

/-- Environment in which the metadata write fails after a successful
object-store upload. -/
def envMetaFailA : UploadEnv :=
  ⟨sampleVerify, .ok (), .ok 125, .ok (), .ok "fid1", .error "meta down", .ok (), "U"⟩

/-- Environment in which the object-store upload itself fails. -/
def envUploadFailA : UploadEnv :=
  ⟨sampleVerify, .ok (), .ok 125, .ok (), .error "b2 down", .ok (), .ok (), "U"⟩

/-- Well-formed video upload request for course C, section S, content X. -/
def reqVideoA : UploadRequest :=
  ⟨some "tok", some "video", some "C", some "u1", some "N", some "S", some "X",
    none, some ⟨"clip.mp4"⟩⟩

/-- Video upload request carrying a file whose extension is not in the
video whitelist. -/
def reqBadExtA : UploadRequest :=
  ⟨some "tok", some "video", some "C", some "u1", some "N", some "S", some "X",
    none, some ⟨"notes.txt"⟩⟩

/-- Upload request whose uploader field names a different user than the one
the token verifies to. -/
def reqMismatchA : UploadRequest :=
  ⟨some "tok", some "video", some "C", some "u2", some "N", some "S", some "X",
    none, some ⟨"clip.mp4"⟩⟩

/-- Thumbnail upload request without a contentId. -/
def reqThumbA : UploadRequest :=
  ⟨some "tok", some "thumbnail", some "C", some "u1", some "N", some "S", none,
    none, some ⟨"cover.png"⟩⟩

/-- Concrete file-url environment in which every external call succeeds. -/
def envUrlA : FileUrlEnv :=
  ⟨fun t => if t = "tok" then .ok () else .error "bad token", .ok (),
    .ok (some "https://acct.example"), .ok ⟨none, "atok"⟩, "bid", "bkt"⟩

/-- Every run of the upload handler either issues no external call at all
(the rejection and early-throw paths), or passed every validation: the token
verified to the uid named by the uploader field, the declared type is
whitelisted, the lowercased extension is allowed for it, and the run
continues as uploadAfterKey on the derived storage key. -/
theorem uploadHandler_dichotomy (env : UploadEnv) (req : UploadRequest) :
    (uploadHandler env req).effects = [] ∨
    (∃ tok uid t,
      req.idToken = some tok ∧ env.verifyToken tok = Except.ok uid ∧
      req.uploader = some uid ∧ req.type = some t ∧
      (["video", "pdf", "thumbnail"] : List String).contains t = true ∧
      extAllowed t (toLowerStr (extname ((req.file.getD ⟨""⟩).originalname))) = true ∧
      uploadHandler env req =
        uploadAfterKey env req
          (keyFor t env.uuid (toLowerStr (extname ((req.file.getD ⟨""⟩).originalname))))) := by
  obtain ⟨idTok, ty, cid, upl, nm, sid, xid, ord, fl⟩ := req
  cases idTok with
  | none => exact Or.inl rfl
  | some tok =>
  cases hv : env.verifyToken tok with
  | error e => left; simp [uploadHandler, hv]
  | ok uid =>
  cases hb : env.b2Init with
  | error e => left; simp [uploadHandler, hv, hb]
  | ok u =>
  cases u
  by_cases hreq : truthy ty = false ∨ truthy cid = false ∨ truthy upl = false ∨
      fl = none ∨ (¬ty = some "thumbnail" ∧ truthy xid = false)
  · left; simp [uploadHandler, hv, hb, hreq]
  · simp only [not_or, not_and, Bool.not_eq_false] at hreq
    obtain ⟨h1, h2, h3, h4, h5⟩ := hreq
    obtain ⟨us, rfl⟩ : ∃ s, upl = some s := by
      cases upl with
      | none => simp [truthy] at h3
      | some s => exact ⟨s, rfl⟩
    by_cases hne : ¬us = uid
    · left
      simp [uploadHandler, hv, hb, h1, h2, h3, h4, hne]
      split <;> rfl
    · push_neg at hne
      subst hne
      obtain ⟨t, rfl⟩ : ∃ s, ty = some s := by
        cases ty with
        | none => simp [truthy] at h1
        | some s => exact ⟨s, rfl⟩
      by_cases ht1 : t = "video"
      · subst ht1
        have hxid : truthy xid = true := h5 (by simp)
        by_cases hext : ¬toLowerStr (extname ((fl.getD ⟨""⟩).originalname)) = ".mp4" ∧
            ¬toLowerStr (extname ((fl.getD ⟨""⟩).originalname)) = ".mov" ∧
            ¬toLowerStr (extname ((fl.getD ⟨""⟩).originalname)) = ".avi"
        · left; simp [uploadHandler, hv, hb, h1, h2, h3, h4, hxid, hext]
        · right
          refine ⟨tok, us, "video", rfl, hv, rfl, rfl, by decide, ?_, ?_⟩
          · simp only [extAllowed, if_pos rfl]
            rcases not_and_or.mp hext with h | h
            · push_neg at h; simp [h]
            · rcases not_and_or.mp h with h | h <;> (push_neg at h; simp [h])
          · simp only [keyFor, if_pos rfl]
            simp [uploadHandler, hv, hb, h1, h2, h3, h4, hxid, hext]
      · by_cases ht2 : t = "pdf"
        · subst ht2
          have hxid : truthy xid = true := h5 (by simp)
          by_cases hext : toLowerStr (extname ((fl.getD ⟨""⟩).originalname)) = ".pdf"
          · right
            refine ⟨tok, us, "pdf", rfl, hv, rfl, rfl, by decide, ?_, ?_⟩
            · simp [extAllowed, hext]
            · simp only [keyFor]
              simp [uploadHandler, hv, hb, h1, h2, h3, h4, hxid, hext]
          · left; simp [uploadHandler, hv, hb, h1, h2, h3, h4, hxid, hext]
        · by_cases ht3 : t = "thumbnail"
          · subst ht3
            by_cases hext : ¬toLowerStr (extname ((fl.getD ⟨""⟩).originalname)) = ".jpg" ∧
                ¬toLowerStr (extname ((fl.getD ⟨""⟩).originalname)) = ".jpeg" ∧
                ¬toLowerStr (extname ((fl.getD ⟨""⟩).originalname)) = ".png"
            · left; simp [uploadHandler, hv, hb, h1, h2, h3, h4, hext]
            · right
              refine ⟨tok, us, "thumbnail", rfl, hv, rfl, rfl, by decide, ?_, ?_⟩
              · simp only [extAllowed]
                rcases not_and_or.mp hext with h | h
                · push_neg at h; simp [h]
                · rcases not_and_or.mp h with h | h <;> (push_neg at h; simp [h])
              · simp only [keyFor]
                simp [uploadHandler, hv, hb, h1, h2, h3, h4, hext]
          · left
            have hxid : truthy xid = true := h5 (by simp [ht3])
            simp [uploadHandler, hv, hb, h1, h2, h3, h4, hxid, ht1, ht2, ht3]

/-- The upload handler never reads the outcome of the cleanup delete: the
response and the issued calls are identical for every delete outcome. -/
theorem uploadHandler_delete_irrel (env : UploadEnv) (req : UploadRequest)
    (d : Except String Unit) :
    uploadHandler { env with deleteResult := d } req = uploadHandler env req := by
  obtain ⟨a, b, c, u1, u2, m, del, uu⟩ := env
  rfl

/-- uploadAfterKey when obtaining the upload URL throws. -/
theorem uploadAfterKey_urlError (env : UploadEnv) (req : UploadRequest)
    (fp e : String) (h : env.uploadUrlResult = Except.error e) :
    uploadAfterKey env req fp =
      ⟨500, .err "Backblaze upload failed" (some e), []⟩ := by
  simp [uploadAfterKey, h]

/-- uploadAfterKey when the B2 uploadFile call throws. -/
theorem uploadAfterKey_uploadError (env : UploadEnv) (req : UploadRequest)
    (fp e : String) (h1 : env.uploadUrlResult = Except.ok ())
    (h2 : env.uploadResult = Except.error e) :
    uploadAfterKey env req fp =
      ⟨500, .err "Backblaze upload failed" (some e), [.uploadFile fp]⟩ := by
  simp [uploadAfterKey, h1, h2]

/-- uploadAfterKey when the upload succeeded with a nonempty fileId and the
metadata write throws: the compensating delete is issued and the caller sees
the metadata failure. -/
theorem uploadAfterKey_metaError (env : UploadEnv) (req : UploadRequest)
    (fp fid e : String) (h1 : env.uploadUrlResult = Except.ok ())
    (h2 : env.uploadResult = Except.ok fid)
    (h3 : env.metaResult = Except.error e) (hfid : ¬fid = "") :
    ∃ me : Effect, (∀ k, me ≠ .uploadFile k) ∧
      (∀ k f, me ≠ .deleteFileVersion k f) ∧
      uploadAfterKey env req fp =
        ⟨500, .err "Firestore write failed" (some e),
          [.uploadFile fp, me, .deleteFileVersion fp fid]⟩ := by
  refine ⟨if req.type.getD "" = "thumbnail" then
      .updateCourseThumbnail (req.courseId.getD "") fp
    else
      .setContent (req.courseId.getD "") (req.sectionId.getD "default")
        (req.contentId.getD "")
        { title := req.name.getD "Untitled", type := req.type.getD "",
          backblazePath := fp, uploader := req.uploader.getD "",
          order := Option.map parseIntJS req.order,
          duration :=
            if req.type.getD "" = "video" then
              some (if (getVideoDuration env.probe).isEmpty then "00:00"
                else getVideoDuration env.probe)
            else none }, ?_, ?_, ?_⟩
  · intro k; split <;> simp
  · intro k f; split <;> simp
  · simp [uploadAfterKey, h1, h2, h3, hfid]

/-- Fully valid video upload with all downstream calls succeeding: the
handler answers 200 with the derived key and a duration string, and issues
exactly the upload and the nested content set. -/
theorem upload_video_ok (env : UploadEnv) (tok uid cid nm sid xid fname fid : String)
    (ord : Option String)
    (hcid : cid.isEmpty = false) (huid : uid.isEmpty = false) (hxid : xid.isEmpty = false)
    (hext : ([".mp4", ".mov", ".avi"] : List String).contains (toLowerStr (extname fname)) = true)
    (hv : env.verifyToken tok = .ok uid)
    (hb : env.b2Init = .ok ())
    (hu1 : env.uploadUrlResult = .ok ())
    (hu2 : env.uploadResult = .ok fid)
    (hm : env.metaResult = .ok ()) :
    uploadHandler env ⟨some tok, some "video", some cid, some uid, some nm, some sid,
        some xid, ord, some ⟨fname⟩⟩ =
      ⟨200,
        .ok (some ("videos/vid_" ++ env.uuid ++ toLowerStr (extname fname))) none
          (some (if (getVideoDuration env.probe).isEmpty then "00:00" else getVideoDuration env.probe)),
        [.uploadFile ("videos/vid_" ++ env.uuid ++ toLowerStr (extname fname)),
         .setContent cid sid xid
           ⟨nm, "video", "videos/vid_" ++ env.uuid ++ toLowerStr (extname fname), uid,
            ord.map parseIntJS,
            some (if (getVideoDuration env.probe).isEmpty then "00:00" else getVideoDuration env.probe)⟩]⟩ := by
  simp only [List.contains_cons, List.contains_nil, Bool.or_eq_true, beq_iff_eq,
    Bool.false_eq_true, or_false] at hext
  simp +decide [uploadHandler, uploadAfterKey, truthy, hv, hb, hu1, hu2, hm, hcid, huid, hxid]
  rcases hext with h | h | h <;> simp [h]

/-- C1: when the object-store upload succeeds (nonempty fileId captured) and
the metadata write then fails, the handler issues the compensating delete for
the uploaded key and fileId, answers 500 with the metadata failure, and the
outcome of the delete never changes the response or the issued calls. -/
theorem uploadMetaFailureCompensatingDelete (env : UploadEnv) (req : UploadRequest)
    (fid e key : String)
    (hu : env.uploadResult = Except.ok fid) (hfid : ¬fid = "")
    (hm : env.metaResult = Except.error e)
    (hup : Effect.uploadFile key ∈ (uploadHandler env req).effects) :
    (uploadHandler env req).status = 500 ∧
    (uploadHandler env req).body = .err "Firestore write failed" (some e) ∧
    Effect.deleteFileVersion key fid ∈ (uploadHandler env req).effects ∧
    (∀ d, uploadHandler { env with deleteResult := d } req = uploadHandler env req) := by
  have hirrel := uploadHandler_delete_irrel env req
  have hmain : (uploadHandler env req).status = 500 ∧
      (uploadHandler env req).body = .err "Firestore write failed" (some e) ∧
      Effect.deleteFileVersion key fid ∈ (uploadHandler env req).effects := by
    rcases uploadHandler_dichotomy env req with hE | ⟨tok, uid, t, _, _, _, _, _, _, heq⟩
    · rw [hE] at hup; simp at hup
    · cases h1 : env.uploadUrlResult with
      | error e2 =>
        rw [heq, uploadAfterKey_urlError env req _ e2 h1] at hup
        simp at hup
      | ok u =>
        cases u
        obtain ⟨me, hme1, hme2, hres⟩ :=
          uploadAfterKey_metaError env req
            (keyFor t env.uuid (toLowerStr (extname ((req.file.getD ⟨""⟩).originalname))))
            fid e h1 hu hm hfid
        have hall : uploadHandler env req =
            ⟨500, .err "Firestore write failed" (some e),
              [.uploadFile (keyFor t env.uuid (toLowerStr (extname ((req.file.getD ⟨""⟩).originalname)))),
               me,
               .deleteFileVersion
                 (keyFor t env.uuid (toLowerStr (extname ((req.file.getD ⟨""⟩).originalname)))) fid]⟩ :=
          heq.trans hres
        rw [hall] at hup
        have hkey : key = keyFor t env.uuid (toLowerStr (extname ((req.file.getD ⟨""⟩).originalname))) := by
          simp at hup
          rcases hup with h | h
          · exact h
          · exact absurd h.symm (hme1 key)
        subst hkey
        rw [hall]
        exact ⟨rfl, rfl, by simp⟩
  exact ⟨hmain.1, hmain.2.1, hmain.2.2, hirrel⟩

/-- Witness for C1: concrete metadata-failure scenario. -/
theorem uploadMetaFailureCompensatingDeleteWitness :
    envMetaFailA.uploadResult = Except.ok "fid1" ∧ ¬("fid1" : String) = "" ∧
    envMetaFailA.metaResult = Except.error "meta down" ∧
    Effect.uploadFile "videos/vid_U.mp4" ∈ (uploadHandler envMetaFailA reqVideoA).effects ∧
    ((uploadHandler envMetaFailA reqVideoA).status = 500 ∧
     (uploadHandler envMetaFailA reqVideoA).body =
       .err "Firestore write failed" (some "meta down") ∧
     Effect.deleteFileVersion "videos/vid_U.mp4" "fid1" ∈
       (uploadHandler envMetaFailA reqVideoA).effects ∧
     (∀ d, uploadHandler { envMetaFailA with deleteResult := d } reqVideoA =
       uploadHandler envMetaFailA reqVideoA)) :=
  ⟨rfl, by decide, rfl, by decide,
    uploadMetaFailureCompensatingDelete envMetaFailA reqVideoA "fid1" "meta down"
      "videos/vid_U.mp4" rfl (by decide) rfl (by decide)⟩

/-- C2: when the object-store upload fails (either obtaining the upload URL
or the uploadFile call throws), no metadata-store write is ever issued, and
a request whose upload call was issued is answered 500 with the upload
failure. -/
theorem uploadFailureNoMetadataWrite (env : UploadEnv) (req : UploadRequest) (e : String)
    (hu : env.uploadResult = Except.error e) :
    (∀ c s x dta, Effect.setContent c s x dta ∉ (uploadHandler env req).effects) ∧
    (∀ c k, Effect.updateCourseThumbnail c k ∉ (uploadHandler env req).effects) ∧
    (∀ key, Effect.uploadFile key ∈ (uploadHandler env req).effects →
      uploadHandler env req =
        ⟨500, .err "Backblaze upload failed" (some e), [.uploadFile key]⟩) := by
  rcases uploadHandler_dichotomy env req with hE | ⟨tok, uid, t, _, _, _, _, _, _, heq⟩
  · simp [hE]
  · cases h1 : env.uploadUrlResult with
    | error e2 =>
      rw [heq, uploadAfterKey_urlError env req _ e2 h1]
      simp
    | ok u =>
      cases u
      rw [heq, uploadAfterKey_uploadError env req _ e h1 hu]
      refine ⟨by simp, by simp, ?_⟩
      intro key hk
      simp at hk
      subst hk
      rfl

/-- Witness for C2: concrete upload-failure scenario. -/
theorem uploadFailureNoMetadataWriteWitness :
    envUploadFailA.uploadResult = Except.error "b2 down" ∧
    uploadHandler envUploadFailA reqVideoA =
      ⟨500, .err "Backblaze upload failed" (some "b2 down"),
        [.uploadFile "videos/vid_U.mp4"]⟩ :=
  ⟨rfl,
    (uploadFailureNoMetadataWrite envUploadFailA reqVideoA "b2 down" rfl).2.2
      "videos/vid_U.mp4" (by decide)⟩

/-- C3: the round-trip fails in this revision.  A successful video upload
for course C, section S, content X answers 200 with the key and does write
the content entry (id X, type video, that key) into the metadata store, but
GET /course/C then answers 500 instead of returning the entry: line 336 of
the handler reads `doc.data()` with no binding named doc in scope, so every
fetch of an existing course throws a ReferenceError. -/
theorem courseRoundTripReferenceErrorBug :
    uploadHandler envOkA reqVideoA =
      ⟨200, .ok (some "videos/vid_U.mp4") none (some "02:05"),
        [.uploadFile "videos/vid_U.mp4",
         .setContent "C" "S" "X" ⟨"N", "video", "videos/vid_U.mp4", "u1", none, some "02:05"⟩]⟩ ∧
    applyEffects [⟨"C", none, []⟩] (uploadHandler envOkA reqVideoA).effects =
      [⟨"C", none, [⟨"S", [⟨"X", ⟨"N", "video", "videos/vid_U.mp4", "u1", none, some "02:05"⟩⟩]⟩]⟩] ∧
    getCourseById (applyEffects [⟨"C", none, []⟩] (uploadHandler envOkA reqVideoA).effects) "C" =
      (500, .err "Failed to fetch course") := by
  decide

/-- C4: an upload whose lowercased file extension is not in the whitelist of
its declared type issues no external call at all, and, when every check
before the extension validation passes, is answered 400. -/
theorem invalidExtensionRejected (env : UploadEnv) (req : UploadRequest) (t : String)
    (ht : req.type = some t)
    (hwl : (["video", "pdf", "thumbnail"] : List String).contains t = true)
    (hbad : extAllowed t (toLowerStr (extname ((req.file.getD ⟨""⟩).originalname))) = false) :
    (uploadHandler env req).effects = [] ∧
    (∀ tok uid, req.idToken = some tok → env.verifyToken tok = Except.ok uid →
      env.b2Init = Except.ok () → truthy req.courseId = true →
      req.uploader = some uid → uid.isEmpty = false →
      req.file.isNone = false →
      (t = "thumbnail" ∨ truthy req.contentId = true) →
      (uploadHandler env req).status = 400) := by
  constructor
  · rcases uploadHandler_dichotomy env req with hE | ⟨tok, uid, t2, _, _, _, ht2, _, hext, _⟩
    · exact hE
    · rw [ht] at ht2
      injection ht2 with h
      subst h
      rw [hext] at hbad
      exact absurd hbad (by simp)
  · intro tok uid hid hv hb hcrs hupl huid hf hcnt
    obtain ⟨idTok, ty, cid, upl, nm, sid, xid, ord, fl⟩ := req
    simp only at ht hid hcrs hupl hf hcnt hbad ⊢
    subst hid
    subst ht
    subst hupl
    obtain ⟨f, rfl⟩ : ∃ f, fl = some f := by
      cases fl with
      | none => simp at hf
      | some f => exact ⟨f, rfl⟩
    have hupl2 : truthy (some uid) = true := by simp [truthy, huid]
    simp only [List.contains_cons, List.contains_nil, Bool.or_eq_true, beq_iff_eq,
      Bool.false_eq_true, or_false] at hwl
    rcases hwl with rfl | rfl | rfl
    · have hxid : truthy xid = true := by
        rcases hcnt with h | h
        · exact absurd h (by decide)
        · exact h
      simp [extAllowed] at hbad
      obtain ⟨e1, e2, e3⟩ := hbad
      simp +decide [uploadHandler, hv, hb, hcrs, hupl2, hxid, e1, e2, e3]
    · have hxid : truthy xid = true := by
        rcases hcnt with h | h
        · exact absurd h (by decide)
        · exact h
      simp [extAllowed] at hbad
      simp +decide [uploadHandler, hv, hb, hcrs, hupl2, hxid, hbad]
    · simp [extAllowed] at hbad
      obtain ⟨e1, e2, e3⟩ := hbad
      simp +decide [uploadHandler, hv, hb, hcrs, hupl2, e1, e2, e3]

/-- Witness for C4: a video upload carrying notes.txt. -/
theorem invalidExtensionRejectedWitness :
    reqBadExtA.type = some "video" ∧
    extAllowed "video" (toLowerStr (extname ((reqBadExtA.file.getD ⟨""⟩).originalname))) = false ∧
    (uploadHandler envOkA reqBadExtA).effects = [] ∧
    (uploadHandler envOkA reqBadExtA).status = 400 :=
  ⟨rfl, by decide,
    (invalidExtensionRejected envOkA reqBadExtA "video" rfl (by decide) (by decide)).1,
    (invalidExtensionRejected envOkA reqBadExtA "video" rfl (by decide) (by decide)).2
      "tok" "u1" rfl rfl rfl (by decide) rfl (by decide) (by decide)
      (Or.inr (by decide))⟩

/-- C5: an upload whose uploader field differs from the identity the token
verified to issues no external call at all, and, when every other check
before the uploader comparison passes, is answered exactly 403 Forbidden. -/
theorem uploaderMismatchRejected (env : UploadEnv) (req : UploadRequest)
    (tok uid u : String)
    (hid : req.idToken = some tok) (hv : env.verifyToken tok = Except.ok uid)
    (hupl : req.uploader = some u) (hne : ¬u = uid) :
    (uploadHandler env req).effects = [] ∧
    (env.b2Init = Except.ok () → truthy req.type = true → truthy req.courseId = true →
      u.isEmpty = false → req.file.isNone = false →
      (req.type = some "thumbnail" ∨ truthy req.contentId = true) →
      uploadHandler env req =
        ⟨403, .err "Forbidden" (some "Uploader does not match authenticated user"), []⟩) := by
  constructor
  · rcases uploadHandler_dichotomy env req with hE | ⟨tok2, uid2, t2, hid2, hv2, hupl2, _, _, _, _⟩
    · exact hE
    · rw [hid] at hid2
      injection hid2 with h
      subst h
      rw [hv] at hv2
      injection hv2 with h
      subst h
      rw [hupl] at hupl2
      injection hupl2 with h
      exact absurd h hne
  · intro hb hty hcrs hu hf hcnt
    obtain ⟨idTok, ty, cid, upl, nm, sid, xid, ord, fl⟩ := req
    simp only at hid hupl hty hcrs hf hcnt ⊢
    subst hid
    subst hupl
    obtain ⟨f, rfl⟩ : ∃ f, fl = some f := by
      cases fl with
      | none => simp at hf
      | some f => exact ⟨f, rfl⟩
    have hupl2 : truthy (some u) = true := by simp [truthy, hu]
    rcases hcnt with h | h
    · subst h
      simp +decide [uploadHandler, hv, hb, hcrs, hupl2, hne]
    · simp +decide [uploadHandler, hv, hb, hty, hcrs, hupl2, h, hne]

/-- Witness for C5: uploader u2 with a token verifying to u1. -/
theorem uploaderMismatchRejectedWitness :
    reqMismatchA.idToken = some "tok" ∧
    envOkA.verifyToken "tok" = Except.ok "u1" ∧
    reqMismatchA.uploader = some "u2" ∧ ¬("u2" : String) = "u1" ∧
    (uploadHandler envOkA reqMismatchA).effects = [] ∧
    uploadHandler envOkA reqMismatchA =
      ⟨403, .err "Forbidden" (some "Uploader does not match authenticated user"), []⟩ :=
  ⟨rfl, rfl, rfl, by decide,
    (uploaderMismatchRejected envOkA reqMismatchA "tok" "u1" "u2" rfl rfl rfl
      (by decide)).1,
    (uploaderMismatchRejected envOkA reqMismatchA "tok" "u1" "u2" rfl rfl rfl
      (by decide)).2 rfl (by decide) (by decide) (by decide) (by decide)
      (Or.inr (by decide))⟩

/-- C6: for a valid video upload with the downstream calls succeeding, the
probe outcome never changes the status: every outcome yields 200 with a
duration string in the response, and every extractor failure (temp-write
error, ffprobe error, or metadata without a valid duration) yields the
default duration 00:00. -/
theorem durationFailureNeverFailsUpload (env : UploadEnv)
    (tok uid cid nm sid xid fname fid : String) (ord : Option String)
    (hcid : cid.isEmpty = false) (huid : uid.isEmpty = false) (hxid : xid.isEmpty = false)
    (hext : ([".mp4", ".mov", ".avi"] : List String).contains (toLowerStr (extname fname)) = true)
    (hv : env.verifyToken tok = .ok uid)
    (hb : env.b2Init = .ok ())
    (hu1 : env.uploadUrlResult = .ok ())
    (hu2 : env.uploadResult = .ok fid)
    (hm : env.metaResult = .ok ()) (p : ProbeOutcome) :
    (uploadHandler { env with probe := p } ⟨some tok, some "video", some cid, some uid,
        some nm, some sid, some xid, ord, some ⟨fname⟩⟩).status = 200 ∧
    (∃ d, (uploadHandler { env with probe := p } ⟨some tok, some "video", some cid, some uid,
        some nm, some sid, some xid, ord, some ⟨fname⟩⟩).body =
      .ok (some ("videos/vid_" ++ env.uuid ++ toLowerStr (extname fname))) none (some d)) ∧
    ((p = .writeError ∨ p = .probeError ∨ p = .noDuration) →
      (uploadHandler { env with probe := p } ⟨some tok, some "video", some cid, some uid,
          some nm, some sid, some xid, ord, some ⟨fname⟩⟩).body =
        .ok (some ("videos/vid_" ++ env.uuid ++ toLowerStr (extname fname))) none
          (some "00:00")) := by
  have h := upload_video_ok { env with probe := p } tok uid cid nm sid xid fname fid ord
    hcid huid hxid hext hv hb hu1 hu2 hm
  rw [h]
  refine ⟨rfl, ⟨_, rfl⟩, ?_⟩
  rintro (rfl | rfl | rfl) <;> rfl

/-- Witness for C6: a probe failure in an otherwise-successful scenario. -/
theorem durationFailureNeverFailsUploadWitness :
    ("C" : String).isEmpty = false ∧
    (uploadHandler { envOkA with probe := .probeError } reqVideoA).status = 200 ∧
    (uploadHandler { envOkA with probe := .probeError } reqVideoA).body =
      .ok (some "videos/vid_U.mp4") none (some "00:00") :=
  ⟨by decide,
    (durationFailureNeverFailsUpload envOkA "tok" "u1" "C" "N" "S" "X" "clip.mp4"
      "fid1" none (by decide) (by decide) (by decide) (by decide) rfl rfl rfl rfl rfl
      .probeError).1,
    (durationFailureNeverFailsUpload envOkA "tok" "u1" "C" "N" "S" "X" "clip.mp4"
      "fid1" none (by decide) (by decide) (by decide) (by decide) rfl rfl rfl rfl rfl
      .probeError).2.2 (Or.inr (Or.inl rfl))⟩

/-- C7: a valid video upload of a file with lowercased extension .mp4, all
required fields, matching uploader and successful downstream calls is
answered 200 with a fileUrl of the form videos/vid_<id>.mp4. -/
theorem videoUploadFileUrlPattern (env : UploadEnv)
    (tok uid cid nm sid xid fname fid : String) (ord : Option String)
    (hcid : cid.isEmpty = false) (huid : uid.isEmpty = false) (hxid : xid.isEmpty = false)
    (hmp4 : toLowerStr (extname fname) = ".mp4")
    (hv : env.verifyToken tok = .ok uid)
    (hb : env.b2Init = .ok ())
    (hu1 : env.uploadUrlResult = .ok ())
    (hu2 : env.uploadResult = .ok fid)
    (hm : env.metaResult = .ok ()) :
    (uploadHandler env ⟨some tok, some "video", some cid, some uid, some nm, some sid,
        some xid, ord, some ⟨fname⟩⟩).status = 200 ∧
    ∃ d, (uploadHandler env ⟨some tok, some "video", some cid, some uid, some nm,
        some sid, some xid, ord, some ⟨fname⟩⟩).body =
      .ok (some ("videos/vid_" ++ env.uuid ++ ".mp4")) none (some d) := by
  have h := upload_video_ok env tok uid cid nm sid xid fname fid ord
    hcid huid hxid (by rw [hmp4]; decide) hv hb hu1 hu2 hm
  rw [h, hmp4]
  exact ⟨rfl, _, rfl⟩

/-- Witness for C7: uploading clip.mp4. -/
theorem videoUploadFileUrlPatternWitness :
    toLowerStr (extname "clip.mp4") = ".mp4" ∧
    (uploadHandler envOkA reqVideoA).status = 200 ∧
    ∃ d, (uploadHandler envOkA reqVideoA).body =
      .ok (some ("videos/vid_" ++ envOkA.uuid ++ ".mp4")) none (some d) :=
  ⟨by decide,
    (videoUploadFileUrlPattern envOkA "tok" "u1" "C" "N" "S" "X" "clip.mp4" "fid1"
      none (by decide) (by decide) (by decide) (by decide) rfl rfl rfl rfl rfl).1,
    (videoUploadFileUrlPattern envOkA "tok" "u1" "C" "N" "S" "X" "clip.mp4" "fid1"
      none (by decide) (by decide) (by decide) (by decide) rfl rfl rfl rfl rfl).2⟩

/-- C8: a thumbnail upload without any contentId passes validation, answers
200 with a thumbnailUrl, and its course update sets the thumbnail key of
every course document with the target id. -/
theorem thumbnailUploadWithoutContentId (env : UploadEnv)
    (tok uid cid nm sid fname fid : String) (ord : Option String)
    (hcid : cid.isEmpty = false) (huid : uid.isEmpty = false)
    (hext : ([".jpg", ".jpeg", ".png"] : List String).contains (toLowerStr (extname fname)) = true)
    (hv : env.verifyToken tok = .ok uid)
    (hb : env.b2Init = .ok ())
    (hu1 : env.uploadUrlResult = .ok ())
    (hu2 : env.uploadResult = .ok fid)
    (hm : env.metaResult = .ok ()) :
    uploadHandler env ⟨some tok, some "thumbnail", some cid, some uid, some nm, some sid,
        none, ord, some ⟨fname⟩⟩ =
      ⟨200, .ok none (some ("thumbnails/thumb_" ++ env.uuid ++ toLowerStr (extname fname))) none,
        [.uploadFile ("thumbnails/thumb_" ++ env.uuid ++ toLowerStr (extname fname)),
         .updateCourseThumbnail cid
           ("thumbnails/thumb_" ++ env.uuid ++ toLowerStr (extname fname))]⟩ ∧
    (∀ db c, c ∈ applyEffects db (uploadHandler env ⟨some tok, some "thumbnail", some cid,
        some uid, some nm, some sid, none, ord, some ⟨fname⟩⟩).effects →
      c.id = cid →
      c.thumbnailUrl = some ("thumbnails/thumb_" ++ env.uuid ++ toLowerStr (extname fname))) := by
  have hres : uploadHandler env ⟨some tok, some "thumbnail", some cid, some uid, some nm,
      some sid, none, ord, some ⟨fname⟩⟩ =
      ⟨200, .ok none (some ("thumbnails/thumb_" ++ env.uuid ++ toLowerStr (extname fname))) none,
        [.uploadFile ("thumbnails/thumb_" ++ env.uuid ++ toLowerStr (extname fname)),
         .updateCourseThumbnail cid
           ("thumbnails/thumb_" ++ env.uuid ++ toLowerStr (extname fname))]⟩ := by
    simp only [List.contains_cons, List.contains_nil, Bool.or_eq_true, beq_iff_eq,
      Bool.false_eq_true, or_false] at hext
    simp +decide [uploadHandler, uploadAfterKey, truthy, hv, hb, hu1, hu2, hm, hcid, huid]
    rcases hext with h | h | h <;> simp [h]
  refine ⟨hres, ?_⟩
  intro db c hc hcid2
  rw [hres] at hc
  simp only [applyEffects, List.foldl, applyEffect] at hc
  obtain ⟨a, ha, hfa⟩ := List.mem_map.mp hc
  by_cases hid2 : a.id = cid
  · rw [if_pos hid2] at hfa
    subst hfa
    rfl
  · rw [if_neg hid2] at hfa
    subst hfa
    exact absurd hcid2 hid2

/-- Witness for C8: uploading cover.png as the thumbnail of course C. -/
theorem thumbnailUploadWithoutContentIdWitness :
    ("C" : String).isEmpty = false ∧
    uploadHandler envOkA reqThumbA =
      ⟨200, .ok none (some "thumbnails/thumb_U.png") none,
        [.uploadFile "thumbnails/thumb_U.png",
         .updateCourseThumbnail "C" "thumbnails/thumb_U.png"]⟩ :=
  ⟨by decide,
    (thumbnailUploadWithoutContentId envOkA "tok" "u1" "C" "N" "S" "cover.png" "fid1"
      none (by decide) (by decide) (by decide) rfl rfl rfl rfl rfl).1⟩

/-- C9: GET /file-url with a nonempty token and key composes the signed URL
from the download host, bucket name, key and authorization token, and every
issued authorization call is scoped to the key as prefix with a validity of
exactly 3600 seconds; a missing token or key is answered 400, and a
verification or authorization failure is answered 500. -/
theorem fileUrlSignedUrlContract (env : FileUrlEnv) (tok fp : String)
    (htok : tok.isEmpty = false) (hfp : fp.isEmpty = false) :
    (∀ acct dl, env.verifyToken tok = Except.ok () → env.b2Init = Except.ok () →
      env.authResult = Except.ok acct → env.dlAuthResult = Except.ok dl →
      fileUrlHandler env (some tok) (some fp) =
        ⟨200,
          .ok (orFalsy dl.downloadUrl (orFalsy acct "https://f000.backblazeb2.com") ++
            "/file/" ++ env.bucketName ++ "/" ++ fp ++ "?Authorization=" ++
            dl.authorizationToken),
          [⟨env.bucketId, fp, 3600⟩]⟩) ∧
    (∀ acct e, env.verifyToken tok = Except.ok () → env.b2Init = Except.ok () →
      env.authResult = Except.ok acct → env.dlAuthResult = Except.error e →
      fileUrlHandler env (some tok) (some fp) =
        ⟨500, .err "Failed to generate signed URL" (some e), [⟨env.bucketId, fp, 3600⟩]⟩) ∧
    (∀ e, env.verifyToken tok = Except.error e →
      fileUrlHandler env (some tok) (some fp) =
        ⟨500, .err "Failed to generate signed URL" (some e), []⟩) ∧
    (∀ t, fileUrlHandler env t none = ⟨400, .err "Missing idToken or filePath" none, []⟩) ∧
    (fileUrlHandler env none (some fp) = ⟨400, .err "Missing idToken or filePath" none, []⟩) := by
  refine ⟨?_, ?_, ?_, ?_, ?_⟩
  · intro acct dl h1 h2 h3 h4
    simp [fileUrlHandler, truthy, htok, hfp, h1, h2, h3, h4]
  · intro acct e h1 h2 h3 h4
    simp [fileUrlHandler, truthy, htok, hfp, h1, h2, h3, h4]
  · intro e h1
    simp [fileUrlHandler, truthy, htok, hfp, h1]
  · intro t
    simp [fileUrlHandler, truthy]
  · simp [fileUrlHandler, truthy]

/-- Witness for C9: a fully successful signed-URL request. -/
theorem fileUrlSignedUrlContractWitness :
    ("tok" : String).isEmpty = false ∧ ("videos/v.mp4" : String).isEmpty = false ∧
    fileUrlHandler envUrlA (some "tok") (some "videos/v.mp4") =
      ⟨200, .ok "https://acct.example/file/bkt/videos/v.mp4?Authorization=atok",
        [⟨"bid", "videos/v.mp4", 3600⟩]⟩ :=
  ⟨by decide, by decide, by
    have h := (fileUrlSignedUrlContract envUrlA "tok" "videos/v.mp4" (by decide)
      (by decide)).1 (some "https://acct.example") ⟨none, "atok"⟩ rfl rfl rfl rfl
    exact h.trans (by decide)⟩

/-- C10: on a valid nonnegative duration of d seconds the stored string is d
floored to whole seconds, rendered as zero-padded MM:SS below one hour and
as zero-padded HH:MM:SS from one hour up. -/
theorem durationFormatSpec (d : ℚ) (h : 0 ≤ d) :
    getVideoDuration (.ok d) = specDurationString d := by
  show (if d = 0 then "00:00" else formatDuration d) = specDurationString d
  by_cases h0 : d = 0
  · subst h0
    rw [if_pos rfl]
    decide
  · rw [if_neg h0]
    unfold formatDuration specDurationString
    have hfl : (0 : ℤ) ≤ ⌊d⌋ := Int.floor_nonneg.mpr h
    by_cases hlt : d < 3600
    · have hz : ⌊d⌋ < 3600 := Int.floor_lt.mpr (by exact_mod_cast hlt)
      have hn : (⌊d⌋).toNat < 3600 := by omega
      rw [if_pos hlt]
      simp only [Nat.div_eq_of_lt hn, Nat.mod_eq_of_lt hn, gt_iff_lt, lt_self_iff_false,
        if_false]
    · have hz : (3600 : ℤ) ≤ ⌊d⌋ := Int.le_floor.mpr (by exact_mod_cast not_lt.mp hlt)
      have hn : 3600 ≤ (⌊d⌋).toNat := by omega
      have hpos : 0 < (⌊d⌋).toNat / 3600 := Nat.div_pos hn (by norm_num)
      rw [if_neg hlt, if_pos hpos]
      have hmin : (⌊d⌋).toNat % 3600 / 60 = (⌊d⌋).toNat / 60 % 60 := by
        have := Nat.mod_mul_right_div_self ((⌊d⌋).toNat) 60 60
        norm_num at this
        exact this
      rw [hmin]

/-- Witness for C10: one hour, two minutes and five seconds. -/
theorem durationFormatSpecWitness :
    (0 : ℚ) ≤ 3725 ∧ getVideoDuration (.ok 3725) = specDurationString 3725 :=
  ⟨by norm_num, durationFormatSpec 3725 (by norm_num)⟩

end B2Backend
